import Mathlib

/-!
Verification development for the esgf_download download engine
(`src/esgf_download/__init__.py`). Each section embeds one part of the
source shallowly in Lean and proves or refutes the corresponding
specification claims.
-/

/-! ## Concurrency counters (`Host`, `Downloader.go_get_em`, `Downloader.handle_events`)

`Host.__init__` sets `thread_count = 0` and `max_thread_count` from its
argument. The dispatch loop of `go_get_em` (lines 513-532) spawns a worker
for a host only while `host.thread_count < host.max_thread_count` and
`total_threads < max_total_threads`, then increments both counters by one.
`handle_events` (lines 424-433) decrements the event's host `thread_count`
and `total_threads` by one on a terminal event. We model the counter state
and the two counter mutations; queues and the worker registry are elided,
since the claims concern only the counters. Python integers are unbounded,
so counters are `Int`.
-/

structure Host where
  max_thread_count : Int
  thread_count : Int
deriving DecidableEq

structure Downloader where
  hosts : List Host
  total_threads : Int
  max_total_threads : Int
deriving DecidableEq

def sumThreadCounts (hs : List Host) : Int :=
  (hs.map Host.thread_count).sum

/-- The invariants claimed for the engine's counters. -/
def CountersInv (e : Downloader) : Prop :=
  sumThreadCounts e.hosts = e.total_threads ∧
  e.total_threads ≤ e.max_total_threads ∧
  ∀ h ∈ e.hosts, h.thread_count ≤ h.max_thread_count

instance : DecidablePred CountersInv := fun e => by
  unfold CountersInv
  infer_instance

/-- Add `d` to `thread_count` of the host at position `i` (the Python code
mutates `self.hosts[...]` in place; positions stand for dictionary keys). -/
def adjustThreadCount (d : Int) : List Host → Nat → List Host
  | [], _ => []
  | h :: t, 0 => { h with thread_count := h.thread_count + d } :: t
  | h :: t, Nat.succ n => h :: adjustThreadCount d t n

/-- Spawn path of the dispatch loop: `host.thread_count += 1`,
`self.total_threads += 1` (lines 529-530). -/
def spawnAt (e : Downloader) (i : Nat) : Downloader :=
  ⟨adjustThreadCount 1 e.hosts i, e.total_threads + 1, e.max_total_threads⟩

/-- Terminal-event path of `handle_events`:
`self.hosts[thread.host].thread_count -= 1`, `self.total_threads -= 1`
(lines 431-432). -/
def finishAt (e : Downloader) (i : Nat) : Downloader :=
  ⟨adjustThreadCount (-1) e.hosts i, e.total_threads - 1, e.max_total_threads⟩

/-- Guard of the spawning `while` (lines 514-516), without the queue
non-emptiness conjunct, which does not bear on the counters. -/
def spawnGuard (e : Downloader) (i : Nat) : Prop :=
  ∃ h, e.hosts.get? i = some h ∧
    h.thread_count < h.max_thread_count ∧
    e.total_threads < e.max_total_threads

theorem sumThreadCounts_adjust (d : Int) :
    ∀ (hs : List Host) (i : Nat) (h : Host), hs.get? i = some h →
      sumThreadCounts (adjustThreadCount d hs i) = sumThreadCounts hs + d := by
  intro hs
  induction hs with
  | nil => intro i h hget; simp [List.get?] at hget
  | cons x t ih =>
    intro i h hget
    cases i with
    | zero =>
      simp [List.get?] at hget
      subst hget
      simp [adjustThreadCount, sumThreadCounts]
      ring
    | succ n =>
      simp [List.get?] at hget
      simp [adjustThreadCount, sumThreadCounts] at ih ⊢
      rw [ih n h hget]
      ring

theorem adjustThreadCount_max (d : Int) :
    ∀ (hs : List Host) (i : Nat) (h' : Host), h' ∈ adjustThreadCount d hs i →
      (h' ∈ hs ∨ ∃ h ∈ hs, hs.get? i = some h ∧
        h' = { h with thread_count := h.thread_count + d }) := by
  intro hs
  induction hs with
  | nil => intro i h' hmem; simp [adjustThreadCount] at hmem
  | cons x t ih =>
    intro i h' hmem
    cases i with
    | zero =>
      simp [adjustThreadCount] at hmem
      rcases hmem with hmem | hmem
      · exact Or.inr ⟨x, by simp, by simp [List.get?], hmem⟩
      · exact Or.inl (List.mem_cons_of_mem _ hmem)
    | succ n =>
      simp [adjustThreadCount] at hmem
      rcases hmem with hmem | hmem
      · exact Or.inl (by simp [hmem])
      · rcases ih n h' hmem with hin | ⟨h, hmemh, hget, heq⟩
        · exact Or.inl (List.mem_cons_of_mem _ hin)
        · exact Or.inr ⟨h, List.mem_cons_of_mem _ hmemh, by simpa using hget, heq⟩

/-- C1: sum over hosts of `thread_count` equals `total_threads`,
`total_threads ≤ max_total_threads`, and every host satisfies
`thread_count ≤ max_thread_count`; the spawn increment of the dispatch loop
(under its guard) and the terminal-event decrement of `handle_events` (for
an existing host) each preserve this conjunction of predicates. -/
theorem C1_counter_invariants (e : Downloader) (i : Nat) (hinv : CountersInv e) :
    (spawnGuard e i → CountersInv (spawnAt e i)) ∧
    ((∃ h, e.hosts.get? i = some h) → CountersInv (finishAt e i)) := by
  obtain ⟨hsum, htot, hbound⟩ := hinv
  constructor
  · rintro ⟨h, hget, hlt, htlt⟩
    refine ⟨?_, ?_, ?_⟩
    · show sumThreadCounts (adjustThreadCount 1 e.hosts i) = e.total_threads + 1
      rw [sumThreadCounts_adjust 1 e.hosts i h hget, hsum]
    · show e.total_threads + 1 ≤ e.max_total_threads
      omega
    · intro h' hmem
      rcases adjustThreadCount_max 1 e.hosts i h' hmem with hin | ⟨h₀, hmem₀, hget₀, heq⟩
      · exact hbound h' hin
      · rw [hget₀] at hget
        cases hget
        subst heq
        simpa using hlt
  · rintro ⟨h, hget⟩
    refine ⟨?_, ?_, ?_⟩
    · show sumThreadCounts (adjustThreadCount (-1) e.hosts i) = e.total_threads - 1
      rw [sumThreadCounts_adjust (-1) e.hosts i h hget, hsum]
      ring
    · show e.total_threads - 1 ≤ e.max_total_threads
      omega
    · intro h' hmem
      rcases adjustThreadCount_max (-1) e.hosts i h' hmem with hin | ⟨h₀, hmem₀, hget₀, heq⟩
      · exact hbound h' hin
      · subst heq
        have := hbound h₀ hmem₀
        simp
        omega

/-- Witness for C1: a concrete one-host engine satisfying the invariants;
spawning under the guard and then finishing both preserve them. -/
theorem C1_counter_invariants_witness :
    CountersInv (spawnAt ⟨[⟨3, 0⟩], 0, 100⟩ 0) ∧
    CountersInv (finishAt ⟨[⟨3, 1⟩], 1, 100⟩ 0) :=
  ⟨(C1_counter_invariants ⟨[⟨3, 0⟩], 0, 100⟩ 0 (by decide)).1
      ⟨⟨3, 0⟩, rfl, by decide, by decide⟩,
   (C1_counter_invariants ⟨[⟨3, 1⟩], 1, 100⟩ 0 (by decide)).2 ⟨⟨3, 1⟩, rfl⟩⟩

/-! ## Event handling (`Downloader.handle_events`, lines 397-446)

Events are tuples `(kind, transfert_id, data)`. The handler computes
`update_fields` from the kind alone, then, when `update_fields` is present
and its status is not `'running'`, adds the timing fields
(`duration = end_time - start_time`, `rate = data_size / duration`,
`start_date`, `end_date`), joins the worker and decrements the counters.
The `rate` division (line 427) is unguarded: a zero duration raises
`ZeroDivisionError` in Python, which we model as `none` at the outer level.
Timestamps are real-valued (`time.time()` floats), modelled as `ℚ`;
`thread.data_size` is an `Int` and the division is Python 2 true division
(int / float), so plain `ℚ` division is the faithful translation.
-/

inductive Event
  | error (msg : String)
  | length (len : Int)
  | speed (kbps : ℚ)
  | aborted (reason : String)
  | done (rate : ℚ)
deriving DecidableEq

/-- The per-worker fields `handle_events` reads: `data_size`, `start_time`,
`end_time` (set by `_mark_start_time` / `_mark_end_time`). -/
structure ThreadSnap where
  data_size : Int
  start_time : ℚ
  end_time : ℚ
deriving DecidableEq

/-- The `update_fields` dictionary. `none` in an optional field means the
key is absent from the dictionary. -/
structure UpdateFields where
  status : String
  error_msg : Option String
  duration : Option ℚ
  rate : Option ℚ
  start_date : Option ℚ
  end_date : Option ℚ
deriving DecidableEq

/-- Lines 425-429: fields added for a non-`'running'` update. Returns
`none` when `duration` is zero, where the Python division raises
`ZeroDivisionError` (before any counter is decremented). -/
def terminalFields (status : String) (emsg : Option String) (t : ThreadSnap) :
    Option UpdateFields :=
  if t.end_time - t.start_time = 0 then none
  else some
    { status := status
      error_msg := emsg
      duration := some (t.end_time - t.start_time)
      rate := some ((t.data_size : ℚ) / (t.end_time - t.start_time))
      start_date := some t.start_time
      end_date := some t.end_time }

/-- One dequeued event, lines 405-433. The result is `none` on the
`ZeroDivisionError` of line 427; otherwise it is the `update_fields`
written to the catalog (or `none` when no update happens, i.e. `SPEED`)
paired with the flag telling whether the worker was joined, the counters
decremented and the worker removed (the `status != 'running'` branch). -/
def handle_event (e : Event) (t : ThreadSnap) :
    Option (Option UpdateFields × Bool) :=
  match e with
  | .error m => (terminalFields "error" (some m) t).map (fun u => (some u, true))
  | .length _ =>
      some (some ⟨"running", none, none, none, none, none⟩, false)
  | .speed _ => some (none, false)
  | .aborted _ => (terminalFields "waiting" none t).map (fun u => (some u, true))
  | .done _ => (terminalFields "done" none t).map (fun u => (some u, true))

/-- The record produced by `terminalFields` when the duration is nonzero. -/
def terminalRecord (status : String) (emsg : Option String) (t : ThreadSnap) : UpdateFields :=
  { status := status
    error_msg := emsg
    duration := some (t.end_time - t.start_time)
    rate := some ((t.data_size : ℚ) / (t.end_time - t.start_time))
    start_date := some t.start_time
    end_date := some t.end_time }

theorem terminalFields_of_ne (status : String) (emsg : Option String) (t : ThreadSnap)
    (h : t.end_time - t.start_time ≠ 0) :
    terminalFields status emsg t = some (terminalRecord status emsg t) := by
  simp [terminalFields, terminalRecord, h]

/-- C3: the persisted update is a function of the event kind alone: ERROR
persists `status='error'` with `error_msg` the payload, LENGTH persists
`status='running'` without decrementing, ABORTED persists
`status='waiting'`, DONE persists `status='done'`, SPEED touches nothing;
and the counter decrement / worker removal happens exactly on ERROR,
ABORTED and DONE. -/
theorem C3_event_dispatch (t : ThreadSnap) (h : t.end_time ≠ t.start_time)
    (m r : String) (n : Int) (k rt : ℚ) :
    (∃ u, handle_event (.error m) t = some (some u, true) ∧
      u.status = "error" ∧ u.error_msg = some m) ∧
    handle_event (.length n) t = some (some ⟨"running", none, none, none, none, none⟩, false) ∧
    handle_event (.speed k) t = some (none, false) ∧
    (∃ u, handle_event (.aborted r) t = some (some u, true) ∧
      u.status = "waiting" ∧ u.error_msg = none) ∧
    (∃ u, handle_event (.done rt) t = some (some u, true) ∧
      u.status = "done" ∧ u.error_msg = none) := by
  have hd : t.end_time - t.start_time ≠ 0 := sub_ne_zero.mpr h
  exact ⟨⟨terminalRecord "error" (some m) t,
      by simp [handle_event, terminalFields_of_ne _ _ _ hd], rfl, rfl⟩,
    rfl, rfl,
    ⟨terminalRecord "waiting" none t,
      by simp [handle_event, terminalFields_of_ne _ _ _ hd], rfl, rfl⟩,
    ⟨terminalRecord "done" none t,
      by simp [handle_event, terminalFields_of_ne _ _ _ hd], rfl, rfl⟩⟩

/-- Witness for C3 at a concrete worker snapshot with distinct start and
end times. -/
theorem C3_event_dispatch_witness :
    ∃ u, handle_event (.error "AUTH_FAIL") ⟨0, 0, 2⟩ = some (some u, true) ∧
      u.status = "error" ∧ u.error_msg = some "AUTH_FAIL" :=
  (C3_event_dispatch ⟨0, 0, 2⟩ (by norm_num) "AUTH_FAIL" "x" 0 0 0).1

/-- C10: on every terminal event the persisted `rate` is
`data_size / (end_time - start_time)` (bytes per second); the DONE event's
own rate payload is never consulted (two DONE events with different
payloads persist identically); and when `end_time = start_time` the
unguarded division raises (modelled as `none`), so the computation is
well-defined only when the two timestamps differ. -/
theorem C10_persisted_rate (t : ThreadSnap) (m r : String) (r1 r2 : ℚ) :
    (t.end_time ≠ t.start_time →
      (∃ u, handle_event (.error m) t = some (some u, true) ∧
        u.rate = some ((t.data_size : ℚ) / (t.end_time - t.start_time))) ∧
      (∃ u, handle_event (.aborted r) t = some (some u, true) ∧
        u.rate = some ((t.data_size : ℚ) / (t.end_time - t.start_time))) ∧
      (∃ u, handle_event (.done r1) t = some (some u, true) ∧
        u.rate = some ((t.data_size : ℚ) / (t.end_time - t.start_time)))) ∧
    handle_event (.done r1) t = handle_event (.done r2) t ∧
    (t.end_time = t.start_time → handle_event (.done r1) t = none) := by
  refine ⟨fun h => ?_, rfl, fun h => ?_⟩
  · have hd : t.end_time - t.start_time ≠ 0 := sub_ne_zero.mpr h
    exact ⟨⟨terminalRecord "error" (some m) t,
        by simp [handle_event, terminalFields_of_ne _ _ _ hd], rfl⟩,
      ⟨terminalRecord "waiting" none t,
        by simp [handle_event, terminalFields_of_ne _ _ _ hd], rfl⟩,
      ⟨terminalRecord "done" none t,
        by simp [handle_event, terminalFields_of_ne _ _ _ hd], rfl⟩⟩
  · have hd : t.end_time - t.start_time = 0 := by rw [h]; ring
    simp [handle_event, terminalFields, hd]

/-- Witness for C10: with `data_size = 2048`, `start_time = 0`,
`end_time = 2`, the persisted rate on DONE is `1024` regardless of the
event payload, and with equal timestamps the handler raises. -/
theorem C10_persisted_rate_witness :
    (∃ u, handle_event (.done 77) ⟨2048, 0, 2⟩ = some (some u, true) ∧
      u.rate = some (((2048 : Int) : ℚ) / (2 - 0))) ∧
    handle_event (.done 77) ⟨2048, 0, 2⟩ = handle_event (.done 99) ⟨2048, 0, 2⟩ ∧
    handle_event (.done 77) ⟨2048, 0, 0⟩ = none :=
  ⟨((C10_persisted_rate ⟨2048, 0, 2⟩ "m" "r" 77 99).1 (by norm_num)).2.2,
   (C10_persisted_rate ⟨2048, 0, 2⟩ "m" "r" 77 99).2.1,
   (C10_persisted_rate ⟨2048, 0, 0⟩ "m" "r" 77 99).2.2 rfl⟩

/-! ## Worker finalization (`DownloadThread.download`, lines 289-299)

After the final `enqueue(fd, "", last=True)` and `_mark_end_time`, the
worker compares `data_hash.hexdigest()` with `self.checksum` using `!=`
on strings (case-sensitive); on mismatch it unlinks the file, marks the
end time again and emits `ERROR` with `CHECKSUM_MISMATCH_ERROR`, else it
emits `DONE` with its rate payload.
-/

inductive FinAct
  | unlink
  | markEndTime
  | emitError (msg : String)
  | emitDone (rate : ℚ)
deriving DecidableEq

/-- Lines 289-299 of `DownloadThread.download`, as the sequence of actions
performed given the computed hex digest, the expected checksum and the
already-computed DONE rate payload. -/
def finalizeDownload (hexdigest checksum : String) (rate : ℚ) : List FinAct :=
  if hexdigest ≠ checksum then
    [FinAct.unlink, FinAct.markEndTime, FinAct.emitError "CHECKSUM_MISMATCH_ERROR"]
  else
    [FinAct.emitDone rate]

/-- C4: the digest/checksum comparison is case-sensitive string equality;
on mismatch the worker unlinks the local file and emits
`ERROR(CHECKSUM_MISMATCH_ERROR)` (and emits no DONE), and a DONE event is
emitted exactly when the two strings are equal. -/
theorem C4_checksum_comparison (hexdigest checksum : String) (rate : ℚ) :
    (hexdigest ≠ checksum →
      finalizeDownload hexdigest checksum rate =
        [FinAct.unlink, FinAct.markEndTime, FinAct.emitError "CHECKSUM_MISMATCH_ERROR"]) ∧
    (FinAct.emitDone rate ∈ finalizeDownload hexdigest checksum rate ↔ hexdigest = checksum) := by
  constructor
  · intro hne
    simp [finalizeDownload, hne]
  · by_cases heq : hexdigest = checksum <;> simp [finalizeDownload, heq]

/-- Witness for C4, showing case sensitivity at a concrete input: digest
`"ab"` against checksum `"AB"` takes the mismatch path. -/
theorem C4_checksum_comparison_witness :
    finalizeDownload "ab" "AB" 0 =
      [FinAct.unlink, FinAct.markEndTime, FinAct.emitError "CHECKSUM_MISMATCH_ERROR"] :=
  (C4_checksum_comparison "ab" "AB" 0).1 (by decide)

/-! ## Worker prologue (`DownloadThread.download`, lines 225-241)

The checksum-type check (line 228) has no `return` in its body: after
putting the `ERROR` event on the queue the function falls through to
`data_hash = hashlib.new(self.checksum_type.lower())` (line 231), which
raises an uncaught `ValueError` for an unsupported algorithm name, killing
the worker thread before the HTTP request. `hashlib.algorithms` is the
Python 2.7 tuple of guaranteed algorithms.
-/

def hashlib_algorithms : List String :=
  ["md5", "sha1", "sha224", "sha256", "sha384", "sha512"]

/-- Python 2 `str.lower()` on byte strings lowercases the ASCII letters;
algorithm names are ASCII, so a per-character map is the exact model. -/
def pyLower (s : String) : String :=
  String.mk (s.data.map Char.toLower)

inductive DlAct
  | markEndTime
  | emitEvent (kind payload : String)
  | hashNew (alg : String)
  | httpGet
deriving DecidableEq

inductive PrologueOutcome
  | continued
  | raisedValueError
deriving DecidableEq

/-- Lines 226-231 of `DownloadThread.download`: the `if` block (which does
not return) followed by the unconditional `hashlib.new` call; the outcome
records whether the worker survives to issue the HTTP request (the
`hashlib.new` of an unsupported name raises `ValueError`, uncaught). -/
def downloadPrologue (checksum_type : String) : List DlAct × PrologueOutcome :=
  if hashlib_algorithms.contains (pyLower checksum_type) then
    ([DlAct.hashNew (pyLower checksum_type)], PrologueOutcome.continued)
  else
    ([DlAct.markEndTime,
      DlAct.emitEvent "ERROR" ("UNSUPPORTED_CHECKSUM_TYPE: " ++ checksum_type),
      DlAct.hashNew (pyLower checksum_type)],
     PrologueOutcome.raisedValueError)

/-- C5 (code behavior at the failing input): for `checksum_type =
"crc32-foo"` the worker does emit the `UNSUPPORTED_CHECKSUM_TYPE:` ERROR
event, but, lacking a `return`, it then still performs the hash
construction (`hashlib.new`), which raises an uncaught `ValueError` —
rather than terminating cleanly with no further work after the emission.
No HTTP request is reached. -/
theorem C5_unsupported_checksum_falls_through :
    downloadPrologue "crc32-foo" =
      ([DlAct.markEndTime,
        DlAct.emitEvent "ERROR" "UNSUPPORTED_CHECKSUM_TYPE: crc32-foo",
        DlAct.hashNew "crc32-foo"],
       PrologueOutcome.raisedValueError) ∧
    DlAct.hashNew "crc32-foo" ∈ (downloadPrologue "crc32-foo").1 ∧
    DlAct.httpGet ∉ (downloadPrologue "crc32-foo").1 := by
  have htl : pyLower "crc32-foo" = "crc32-foo" := by decide
  have hc : hashlib_algorithms.contains "crc32-foo" = false := by decide
  have h1 : downloadPrologue "crc32-foo" =
      ([DlAct.markEndTime,
        DlAct.emitEvent "ERROR" "UNSUPPORTED_CHECKSUM_TYPE: crc32-foo",
        DlAct.hashNew "crc32-foo"],
       PrologueOutcome.raisedValueError) := by
    rw [downloadPrologue, htl, hc]
    simp
  refine ⟨h1, ?_, ?_⟩ <;> rw [h1] <;> simp

/-! ## DONE rate payload (`DownloadThread.download`, lines 296-299)

`self.data_size / 1024` is Python 2 integer floor division; the result is
then divided by `self.start_time - self.end_time` — note the operand
order: start minus end, which is non-positive for any real transfer.
Equal timestamps would raise `ZeroDivisionError`, modelled as `none`.
-/

def doneRatePayload (data_size : Int) (start_time end_time : ℚ) : Option ℚ :=
  if start_time - end_time = 0 then none
  else some ((Int.fdiv data_size 1024 : ℚ) / (start_time - end_time))

/-- C6 (code behavior at the failing input): for a transfer of 2048 bytes
with `start_time = 0` and `end_time = 1`, the DONE payload computed by the
code is `-2` KB/s — negative, because line 299 divides by
`start_time - end_time` instead of the elapsed `end_time - start_time`;
the claimed non-negative average over the same data is `+2`. -/
theorem C6_done_rate_negated :
    doneRatePayload 2048 0 1 = some (-2) ∧
    (∀ q, doneRatePayload 2048 0 1 = some q → q < 0) ∧
    ((2048 : ℚ) / 1024) / (1 - 0) = 2 := by
  have h1 : doneRatePayload 2048 0 1 = some (-2) := by
    rw [doneRatePayload, if_neg (by norm_num)]
    norm_num [Int.fdiv]
  refine ⟨h1, ?_, by norm_num⟩
  intro q hq
  rw [h1, Option.some_inj] at hq
  rw [← hq]
  norm_num

/-! ## Abort check before open (`DownloadThread.download`, lines 251-299)

Line 251-253 reads the abort flag under `abort_lock` and binds `fd` only
when the flag is clear; there is no `else` branch and no return. With the
flag set, execution continues with `fd` unbound. The streaming loop body's
first statement is `self.writer.enqueue(fd, chunk)` (line 264), so with a
non-empty body the unbound reference raises inside the
`try`/`except Exception` (lines 261-283), producing an `ABORTED` event;
with an empty body the loop is skipped and line 286
(`self.writer.enqueue(fd, "", last=True)`) raises outside any handler,
killing the thread with no terminal event. We model lines 251-299 for a
worker whose abort flag does not change during the streaming loop,
tracking the control-flow outcome (per-chunk SPEED bookkeeping is elided,
as it does not affect which exit is taken).
-/

inductive StreamOutcome
  | terminatedAtCheck
  | abortedUnboundFd
  | diedUnboundFd
  | finished (acts : List FinAct)
deriving DecidableEq

/-- Lines 251-299: outcome of the worker after the directory creation,
given the abort flag value read at the pre-open check and the list of
response body chunks. `terminatedAtCheck` is the exit the specification
describes (return at the check, before touching `fd`); the source has no
such exit. -/
def downloadAfterMkdirs (abort : Bool) (chunks : List (List Nat))
    (hexdigest checksum : String) (rate : ℚ) : StreamOutcome :=
  if abort then
    match chunks with
    | [] => StreamOutcome.diedUnboundFd
    | _ :: _ => StreamOutcome.abortedUnboundFd
  else
    StreamOutcome.finished (finalizeDownload hexdigest checksum rate)

/-- C7 (code behavior at the failing input): with the abort flag set at the
pre-open check, the worker does not terminate there; it proceeds and
references the unbound `fd` — with an empty response body the reference
escapes every handler and the thread dies emitting nothing, and with a
non-empty body it is caught and converted into an `ABORTED` event. The
file itself is indeed never opened, but execution after the check is not
well-defined in the claimed sense. -/
theorem C7_abort_unbound_fd :
    downloadAfterMkdirs true [] "d" "d" 0 = StreamOutcome.diedUnboundFd ∧
    downloadAfterMkdirs true [[0]] "d" "d" 0 = StreamOutcome.abortedUnboundFd ∧
    (∀ (chunks : List (List Nat)) (h c : String) (r : ℚ),
      downloadAfterMkdirs true chunks h c r ≠ StreamOutcome.terminatedAtCheck) := by
  refine ⟨rfl, rfl, ?_⟩
  intro chunks h c r
  cases chunks <;> simp [downloadAfterMkdirs]

/-! ## Exception classification in `get_request` (lines 52-65)

Python tries `except` clauses in textual order and takes the first whose
class matches. In the `requests` library, `ConnectionError`, `HTTPError`,
`URLRequired` and `TooManyRedirects` are all subclasses of
`RequestException`, and the source lists `except requests.RequestException`
FIRST, so every request-layer exception takes that clause. The final
`except error` clause names an unbound identifier `error`: when a
non-request exception reaches it, evaluating the clause raises a
`NameError` instead of producing a taxonomy message. (The unreachable
`ConnectionError` clause would itself fail with a `TypeError`, since it
passes `Exception` a keyword argument.)
-/

inductive ExcClass
  | RequestException
  | ConnectionError
  | HTTPError
  | URLRequired
  | TooManyRedirects
  | OtherException
deriving DecidableEq

/-- Python `isinstance` against a handler's class, restricted to the
classes in play: the four specific request exceptions are subclasses of
`RequestException`; `OtherException` stands for any exception outside the
`requests` hierarchy. -/
def excMatches (c handler : ExcClass) : Bool :=
  c = handler ||
    (handler = ExcClass.RequestException &&
      (c = ExcClass.ConnectionError || c = ExcClass.HTTPError ||
       c = ExcClass.URLRequired || c = ExcClass.TooManyRedirects))

inductive GetOutcome
  | raised (msg : String)
  | typeErrorKeyword
  | nameErrorInHandler
deriving DecidableEq

/-- Lines 52-65 of `get_request`: the handler chain, in source order,
applied to an exception of class `c` whose `str(e)` is `detail`. -/
def get_request_on_exception (c : ExcClass) (detail : String) : GetOutcome :=
  if excMatches c ExcClass.RequestException then
    GetOutcome.raised ("REQUESTS_UNKNOWN_ERROR: " ++ detail)
  else if excMatches c ExcClass.ConnectionError then
    GetOutcome.typeErrorKeyword
  else if excMatches c ExcClass.HTTPError then
    GetOutcome.raised ("HTTP_ERROR: " ++ detail)
  else if excMatches c ExcClass.URLRequired then
    GetOutcome.raised "NOURL_ERROR"
  else if excMatches c ExcClass.TooManyRedirects then
    GetOutcome.raised "TOO_MANY_REDIRECTS"
  else
    GetOutcome.nameErrorInHandler

/-- C8 (code behavior at the failing input): a `requests.ConnectionError`
is caught by the `except requests.RequestException` clause, which comes
first, so it raises `REQUESTS_UNKNOWN_ERROR: <detail>` and not
`CONNECTION_ERROR: <detail>`; likewise every specific request exception
maps to `REQUESTS_UNKNOWN_ERROR`, and a non-request failure never reaches
a taxonomy message at all — the `except error` clause fails with a
`NameError`. -/
theorem C8_exception_taxonomy_dead :
    get_request_on_exception ExcClass.ConnectionError "boom" =
      GetOutcome.raised "REQUESTS_UNKNOWN_ERROR: boom" ∧
    get_request_on_exception ExcClass.ConnectionError "boom" ≠
      GetOutcome.raised "CONNECTION_ERROR: boom" ∧
    (∀ d, get_request_on_exception ExcClass.HTTPError d =
      GetOutcome.raised ("REQUESTS_UNKNOWN_ERROR: " ++ d) ∧
      get_request_on_exception ExcClass.URLRequired d =
        GetOutcome.raised ("REQUESTS_UNKNOWN_ERROR: " ++ d) ∧
      get_request_on_exception ExcClass.TooManyRedirects d =
        GetOutcome.raised ("REQUESTS_UNKNOWN_ERROR: " ++ d)) ∧
    (∀ d, get_request_on_exception ExcClass.OtherException d =
      GetOutcome.nameErrorInHandler) := by
  refine ⟨rfl, by decide, fun d => ⟨rfl, rfl, rfl⟩, fun d => rfl⟩

/-! ## The write serializer (`MultiFileWriter`, lines 77-138)

`enqueue` appends `(fd, res, last)` at the right of the deque; the
consumer loop in `process` pops from the left (`popleft`), writes `res` to
`fd`, and closes `fd` exactly when `last` is set. The deque is therefore
FIFO: entries are consumed in the order `enqueue` was called. We model
the sequence of enqueued entries (in call order) and the stream of
filesystem actions the consumer performs on them; file descriptors are
`Nat`, byte buffers are `List Nat`.
-/

structure WriteQueueEntry where
  fd : Nat
  res : List Nat
  last : Bool
deriving DecidableEq

inductive WriteAction
  | write (fd : Nat) (res : List Nat)
  | close (fd : Nat)
deriving DecidableEq

/-- The consumer loop of `MultiFileWriter.process` applied to the entries
it will pop, in pop (= enqueue) order: `fd.write(res)`, then `fd.close()`
when `last`. -/
def MultiFileWriter_process : List WriteQueueEntry → List WriteAction
  | [] => []
  | e :: rest =>
      WriteAction.write e.fd e.res ::
        (if e.last then WriteAction.close e.fd :: MultiFileWriter_process rest
         else MultiFileWriter_process rest)

/-- All writes performed, in order, as `(fd, bytes)` pairs. -/
def writesOf : List WriteAction → List (Nat × List Nat)
  | [] => []
  | WriteAction.write f r :: rest => (f, r) :: writesOf rest
  | WriteAction.close _ :: rest => writesOf rest

/-- The byte buffers written to descriptor `f`, in order. -/
def writesTo (f : Nat) : List WriteAction → List (List Nat)
  | [] => []
  | WriteAction.write g r :: rest =>
      if g = f then r :: writesTo f rest else writesTo f rest
  | WriteAction.close _ :: rest => writesTo f rest

/-- C9: the consumer performs exactly one write per queue entry, in FIFO
enqueue order; the entry's descriptor is closed immediately after its
write exactly when its `last` flag is set; consequently the buffers
written to any given descriptor are the enqueued buffers for that
descriptor, in enqueue order. -/
theorem C9_writer_fifo (q : List WriteQueueEntry) (f : Nat) :
    writesOf (MultiFileWriter_process q) = q.map (fun e => (e.fd, e.res)) ∧
    writesTo f (MultiFileWriter_process q) =
      (q.filter (fun e => e.fd == f)).map (fun e => e.res) ∧
    (∀ e rest, MultiFileWriter_process (e :: rest) =
      WriteAction.write e.fd e.res ::
        (if e.last then WriteAction.close e.fd :: MultiFileWriter_process rest
         else MultiFileWriter_process rest)) := by
  refine ⟨?_, ?_, fun e rest => rfl⟩
  · induction q with
    | nil => rfl
    | cons e rest ih =>
      by_cases hl : e.last <;>
        simp [MultiFileWriter_process, writesOf, hl, ih]
  · induction q with
    | nil => rfl
    | cons e rest ih =>
      by_cases hf : e.fd = f
      · by_cases hl : e.last <;>
          simp [MultiFileWriter_process, writesTo, hl, hf, ih]
      · by_cases hl : e.last <;>
          simp [MultiFileWriter_process, writesTo, hl, hf, ih]

/-! ## Immediate shutdown (`Downloader.go_get_em`, lines 542-559)

When `stop_now` is set, the tail of `go_get_em` runs, in source order:
`writer.write_and_quit()` (line 544) FIRST; then for each live worker,
`abort = True` under its `abort_lock` followed by the
`UPDATE ... SET status='waiting'` for its row (lines 545-551); then one
`commit` (line 552); then `time.sleep(10)` (line 554); then a best-effort
`os.unlink` of every worker's file (lines 555-559). Workers are listed in
`download_threads.values()` order, modelled as a list of transfer ids.
-/

inductive ShutAct
  | drainWriter
  | setAbort (w : Nat)
  | persistWaiting (w : Nat)
  | commitDb
  | sleep10
  | unlinkFile (w : Nat)
deriving DecidableEq

/-- The action sequence of the `stop_now` branch (lines 542-559), for the
given list of live workers. -/
def stopNowTrace (workers : List Nat) : List ShutAct :=
  ShutAct.drainWriter ::
    ((workers.flatMap fun w => [ShutAct.setAbort w, ShutAct.persistWaiting w]) ++
      ShutAct.commitDb :: ShutAct.sleep10 :: workers.map ShutAct.unlinkFile)

/-- The order the specification claims, stated from its words for
comparison: abort flags, then persisted statuses, then the 10-second wait,
then the unlinks, and the WriteSerializer drained last. -/
def stopNowTraceSpec (workers : List Nat) : List ShutAct :=
  (workers.map ShutAct.setAbort) ++
    (workers.map ShutAct.persistWaiting) ++
    ShutAct.sleep10 :: (workers.map ShutAct.unlinkFile) ++
    [ShutAct.drainWriter]

/-- Counterexample to C2 as stated: with a single live worker the code's
shutdown sequence does not end with the WriteSerializer drain — it begins
with it (line 544 precedes the abort/persist loop), so the claimed order,
and in particular "only then (last) drain and close the WriteSerializer",
is false of the code. -/
theorem C2_drain_not_last :
    (stopNowTrace [0]).getLast? ≠ some ShutAct.drainWriter ∧
    (stopNowTrace [0]).head? = some ShutAct.drainWriter ∧
    stopNowTrace [0] ≠ stopNowTraceSpec [0] := by
  refine ⟨by decide, rfl, by decide⟩

/-- C2 as amended: on `stop_now` the engine FIRST drains and closes the
WriteSerializer, then for each live worker (in registry order) sets
`abort=true` under that worker's lock and persists `status='waiting'` for
its row, then commits, then waits 10 seconds, and then unlinks every live
worker's local file; so every row belonging to a worker live at signal
time (in particular every row running then) is persisted as `waiting`
before the wait, and its local file is unlinked after the wait. -/
theorem C2_shutdown_order (workers : List Nat) :
    (stopNowTrace workers).head? = some ShutAct.drainWriter ∧
    ∃ pre post, stopNowTrace workers = pre ++ ShutAct.sleep10 :: post ∧
      (∀ w ∈ workers,
        ShutAct.setAbort w ∈ pre ∧ ShutAct.persistWaiting w ∈ pre) ∧
      post = workers.map ShutAct.unlinkFile := by
  refine ⟨rfl, ShutAct.drainWriter ::
      ((workers.flatMap fun w => [ShutAct.setAbort w, ShutAct.persistWaiting w]) ++
        [ShutAct.commitDb]),
    workers.map ShutAct.unlinkFile, ?_, ?_, rfl⟩
  · simp [stopNowTrace]
  · intro w hw
    have h1 : ShutAct.setAbort w ∈
        workers.flatMap fun v => [ShutAct.setAbort v, ShutAct.persistWaiting v] :=
      List.mem_flatMap.mpr ⟨w, hw, by simp⟩
    have h2 : ShutAct.persistWaiting w ∈
        workers.flatMap fun v => [ShutAct.setAbort v, ShutAct.persistWaiting v] :=
      List.mem_flatMap.mpr ⟨w, hw, by simp⟩
    exact ⟨List.mem_cons_of_mem _ (List.mem_append_left _ h1),
      List.mem_cons_of_mem _ (List.mem_append_left _ h2)⟩

/-- Witness for C2's amended statement at a concrete worker list. -/
theorem C2_shutdown_order_witness :
    (stopNowTrace [7]).head? = some ShutAct.drainWriter :=
  (C2_shutdown_order [7]).1
